import Mathlib

/-
Verification of the call-state reconciliation pipeline of the WasteKing
voice dashboard (src/app.py): webhook event ingestion, the
first-confirmed-wins extraction merge, transcript capture and ordering,
status validation, and the retention sweep.

The embedding mirrors src/app.py.  Python attribute values are modelled
by `PyVal` (None / str / bool / int), a SQLAlchemy `Call` row by a record
holding its immutable identity columns plus a name-indexed map of its
mutable columns (mirroring the reflective `hasattr`/`getattr`/`setattr`
access in `extract_information_with_openai`), and the database by a
`Store` of rows.  External HTTP traffic (the OpenAI request in
`extract_information_with_openai`) is the one boundary: its response is
abstracted as an `Option` parameter, `none` covering every failure path
of the source (missing API key, non-200 status, network exception,
malformed JSON body), `some data` the parsed JSON object of a 200
response.
-/

/-- stripChars drops whitespace from both ends of a character list. -/
def stripChars (l : List Char) : List Char :=
  ((l.dropWhile Char.isWhitespace).reverse.dropWhile Char.isWhitespace).reverse

/-- pyStrip models Python `str.strip()` (no arguments): remove leading
and trailing whitespace. -/
def pyStrip (s : String) : String := ⟨stripChars s.data⟩

/-- pyLower models Python `str.lower()` on the ASCII strings that occur
in the webhook payloads. -/
def pyLower (s : String) : String := ⟨s.data.map Char.toLower⟩

/-- PyVal models the Python values that flow through the reflective field
merge in src/app.py: `None`, strings, booleans and integers. -/
inductive PyVal where
  | none : PyVal
  | str : String → PyVal
  | bool : Bool → PyVal
  | int : Int → PyVal
deriving DecidableEq, Repr

/-- pyIsNone models the Python test `value is None`. -/
def pyIsNone : PyVal → Bool
  | .none => true
  | _ => false

/-- pyEqEmptyString models the Python comparison `value == ""`: it is true
exactly for the empty string; for `None`, booleans and integers Python's
`==` against a string returns False (in particular `False == ""` is
False). -/
def pyEqEmptyString : PyVal → Bool
  | .str s => s = ""
  | _ => false

/-- pyUnset models the guard `current_value is None or current_value == ""`
of src/app.py line 280. -/
def pyUnset (v : PyVal) : Bool :=
  pyIsNone v || pyEqEmptyString v

/-- pyTruthy models Python truthiness (`if value:`) for the values that
occur in the source: `None`, `""`, `False` and `0` are falsy. -/
def pyTruthy : PyVal → Bool
  | .none => false
  | .str s => s ≠ ""
  | .bool b => b
  | .int n => n ≠ 0

/-- Call models a row of the `calls` table (class Call, src/app.py lines
54-98).  The primary key `id`, the unique `call_sid` and `start_time` are
immutable identity columns held directly; every other column is reachable
through the name-indexed map `fields`, mirroring the reflective
`hasattr`/`getattr`/`setattr` access used by the extraction merge. -/
structure Call where
  id : Nat
  call_sid : String
  start_time : Int
  fields : String → PyVal

/-- Call.getattr models Python `getattr(call, field)` on the mutable
columns. -/
def Call.getattr (c : Call) (field : String) : PyVal :=
  c.fields field

/-- Call.setattr models Python `setattr(call, field, value)` on the
mutable columns. -/
def Call.setattr (c : Call) (field : String) (value : PyVal) : Call :=
  { c with fields := fun n => if n = field then value else c.fields n }

/-- callColumns lists the mutable mapped columns of class Call
(src/app.py lines 59-96); `hasattr(call, field)` is true for these.  The
identity columns `id`, `call_sid`, `start_time` are held directly in the
`Call` structure and are always populated, so the merge guard of line 280
can never rewrite them. -/
def callColumns : List String :=
  ["from_number", "status", "customer_name", "postcode", "service",
   "customer_address", "customer_email", "callback_requested",
   "trade_customer", "when_needed", "recording_url", "recording_sid",
   "recording_duration", "local_audio_path", "audio_status", "team_notes",
   "skip_size", "waste_type", "placement_location", "delivery_date",
   "time_preference", "skip_price", "booking_confirmed",
   "yards_requested", "supplements", "stairs_access", "grab_size",
   "material_type", "roadside_reach"]

/-- hasattrCall models `hasattr(call, field)` for the mutable columns. -/
def hasattrCall (field : String) : Bool :=
  callColumns.contains field

/-- newCall models `Call(call_sid=..., from_number=..., status='active')`
as committed by handle_incoming_call: the explicit constructor arguments
plus the column defaults of src/app.py lines 59-96 applied at flush
(booleans default False, `roadside_reach` True, `recording_duration` 0,
`audio_status` 'pending', all other nullable columns NULL). -/
def newCall (id : Nat) (callSid fromNumber : String) (now : Int) : Call :=
  { id := id
    call_sid := callSid
    start_time := now
    fields := fun n =>
      if n = "from_number" then .str fromNumber
      else if n = "status" then .str "active"
      else if n = "callback_requested" then .bool false
      else if n = "trade_customer" then .bool false
      else if n = "booking_confirmed" then .bool false
      else if n = "roadside_reach" then .bool true
      else if n = "recording_duration" then .int 0
      else if n = "audio_status" then .str "pending"
      else .none }

/-- Transcript models a row of the `transcripts` table (class Transcript,
src/app.py lines 141-148); `timestamp` is the creation time. -/
structure Transcript where
  call_sid : String
  speaker : String
  text : String
  timestamp : Int
deriving DecidableEq, Repr

/-- LiveCall models a row of the `live_calls` table (class LiveCall,
src/app.py lines 160-170). -/
structure LiveCall where
  call_sid : String
  customer_name : PyVal
  phone : String
  postcode : PyVal
  status : String
  start_time : Int
  last_update : Int
deriving DecidableEq, Repr

/-- newLiveCall models `LiveCall(call_sid=..., phone=...,
status='connecting')` with the column defaults of src/app.py lines
163-170. -/
def newLiveCall (callSid phone : String) (now : Int) : LiveCall :=
  { call_sid := callSid
    customer_name := .str "Unknown"
    phone := phone
    postcode := .str "Unknown"
    status := "connecting"
    start_time := now
    last_update := now }

/-- Store models the database: the three tables plus the autoincrement
counter for the `calls` primary key.  Lists are kept in insertion
order. -/
structure Store where
  nextCallId : Nat
  calls : List Call
  transcripts : List Transcript
  liveCalls : List LiveCall

/-- findCall models `Call.query.filter_by(call_sid=call_sid).first()`. -/
def findCall (s : Store) (callSid : String) : Option Call :=
  s.calls.find? (fun c => c.call_sid == callSid)

/-- findCallById models `Call.query.get(call_id)`. -/
def findCallById (s : Store) (callId : Nat) : Option Call :=
  s.calls.find? (fun c => c.id == callId)

/-- findLiveCall models `LiveCall.query.filter_by(call_sid=...).first()`. -/
def findLiveCall (s : Store) (callSid : String) : Option LiveCall :=
  s.liveCalls.find? (fun lc => lc.call_sid == callSid)

/-- updateCallInList writes a mutated session object back over the first
row matching its call_sid, modelling SQLAlchemy committing in-place
mutation of the object returned by `filter_by(...).first()`. -/
def updateCallInList (callSid : String) (c' : Call) : List Call → List Call
  | [] => []
  | h :: t => if h.call_sid == callSid then c' :: t
              else h :: updateCallInList callSid c' t

/-- updateCallByIdInList is updateCallInList keyed by primary key, for the
handlers that fetch via `Call.query.get`. -/
def updateCallByIdInList (callId : Nat) (c' : Call) : List Call → List Call
  | [] => []
  | h :: t => if h.id == callId then c' :: t
              else h :: updateCallByIdInList callId c' t

/-- updateLiveCallInList writes a mutated LiveCall session object back
over the first row matching its call_sid. -/
def updateLiveCallInList (callSid : String) (lc' : LiveCall) :
    List LiveCall → List LiveCall
  | [] => []
  | h :: t => if h.call_sid == callSid then lc' :: t
              else h :: updateLiveCallInList callSid lc' t

/-- mergeField models one iteration of the merge loop of
extract_information_with_openai (src/app.py lines 277-282): the field is
written only when `hasattr(call, field)` holds, the value is neither
`None` nor `""`, and the current value is `None` or `""`; the `updated`
flag records whether any write happened. -/
def mergeField (acc : Call × Bool) (fv : String × PyVal) : Call × Bool :=
  if hasattrCall fv.1 && !pyIsNone fv.2 && !pyEqEmptyString fv.2 then
    if pyUnset (acc.1.getattr fv.1) then
      (acc.1.setattr fv.1 fv.2, true)
    else acc
  else acc

/-- mergeExtractedData models the whole merge loop `for field, value in
extracted_data.items()` of src/app.py lines 275-282, returning the merged
call and the `updated` flag. -/
def mergeExtractedData (call : Call) (extracted_data : List (String × PyVal)) :
    Call × Bool :=
  extracted_data.foldl mergeField (call, false)

/-- contextMessages models the conversational context assembled in
src/app.py lines 228-236: the five most recent transcript rows of the
call, oldest first, mapped to chat roles, followed by the current
utterance. -/
def contextMessages (s : Store) (callSid text : String) : List (String × String) :=
  let recent := s.transcripts.filter (fun t => t.call_sid == callSid)
  let lastFive := recent.drop (recent.length - 5)
  (lastFive.map (fun t =>
    (if t.speaker == "CUSTOMER" then "user" else "assistant", t.text)))
    ++ [("user", text)]

/-- extract_information_with_openai models src/app.py lines 224-289.  The
HTTP exchange with the OpenAI endpoint is the external boundary: its
outcome is the parameter `outcome`, where `none` covers every failure
path of the source (no API key, non-200 status, request exception or
timeout, malformed JSON body — all of which return False without touching
the call) and `some data` is the parsed JSON object of a 200 response,
which is merged under mergeExtractedData. -/
def extract_information_with_openai
    (outcome : Option (List (String × PyVal))) (call : Call) : Call × Bool :=
  match outcome with
  | .none => (call, false)
  | .some extracted_data => mergeExtractedData call extracted_data

/-- handle_incoming_call models the happy path of src/app.py lines
330-371 (the TwiML response is presentation only): create a Call with
status 'active' if none exists for the CallSid, then likewise a LiveCall;
duplicate deliveries find the existing rows and change nothing. -/
def handle_incoming_call (callSid fromNumber : String) (now : Int)
    (s : Store) : Store :=
  let s1 :=
    match findCall s callSid with
    | .some _ => s
    | .none =>
        { s with
          calls := s.calls ++ [newCall s.nextCallId callSid fromNumber now]
          nextCallId := s.nextCallId + 1 }
  match findLiveCall s1 callSid with
  | .some _ => s1
  | .none =>
      { s1 with liveCalls := s1.liveCalls ++ [newLiveCall callSid fromNumber now] }

/-- twilioRecordingUrl models the URL built at src/app.py line 384. -/
def twilioRecordingUrl (accountSid recordingSid : String) : String :=
  "https://api.twilio.com/2010-04-01/Accounts/" ++ accountSid ++
    "/Recordings/" ++ recordingSid ++ ".mp3"

/-- handle_recording models src/app.py lines 373-392.  `accountSid` is
the TWILIO_ACCOUNT_SID configuration value (`'your_twilio_sid'` when the
environment variable is absent).  The recording fields are written only
when a matching Call exists, the RecordingSid form field is truthy
(non-empty) and the account SID is not the placeholder; the handler
returns ("OK", 200) in every case. -/
def handle_recording (accountSid callSid recordingSid : String)
    (recordingDuration : Int) (s : Store) : Store × Nat :=
  match findCall s callSid with
  | .none => (s, 200)
  | .some call =>
      if recordingSid ≠ "" ∧ accountSid ≠ "your_twilio_sid" then
        let call' :=
          (((call.setattr "recording_url"
              (.str (twilioRecordingUrl accountSid recordingSid))).setattr
              "recording_sid" (.str recordingSid)).setattr
              "recording_duration" (.int recordingDuration)).setattr
              "audio_status" (.str "available")
        ({ s with calls := updateCallInList callSid call' s.calls }, 200)
      else (s, 200)

/-- TranscriptionResult packages what the /voice/transcription handler
produces: the new store, the HTTP status of the acknowledgement (the
source returns "OK", 200 on every path), and whether the handler reached
the call to extract_information_with_openai (src/app.py line 421). -/
structure TranscriptionResult where
  store : Store
  status : Nat
  extractionCalled : Bool

/-- handle_transcription models src/app.py lines 394-450.
`transcriptText` is the `transcript` value parsed out of the
TranscriptionData form field (`none` when the JSON is malformed or the
key absent, in which case the source falls back to the empty string);
`outcome` abstracts the OpenAI response exactly as in
extract_information_with_openai.  On a final, non-empty
transcription-content event for a known call it appends a Transcript row,
runs the extraction merge when the speaker is the customer, and refreshes
the LiveCall projection; transcription-stopped marks the call ended.
Every path acknowledges with 200. -/
def handle_transcription (callSid event : String)
    (transcriptText : Option String) (track finalParam : String)
    (outcome : Option (List (String × PyVal))) (now : Int)
    (s : Store) : TranscriptionResult :=
  if event = "transcription-content" then
    let text := pyStrip (transcriptText.getD "")
    let final := pyLower finalParam == "true"
    if text ≠ "" ∧ final then
      let speaker := if track = "inbound_track" then "CUSTOMER" else "AI_AGENT"
      match findCall s callSid with
      | .none => ⟨s, 200, false⟩
      | .some call =>
          let s1 := { s with transcripts :=
            s.transcripts ++ [(⟨callSid, speaker, text, now⟩ : Transcript)] }
          let call' :=
            if speaker = "CUSTOMER" then
              (extract_information_with_openai outcome call).1
            else call
          let s2 := { s1 with calls := updateCallInList callSid call' s1.calls }
          let s3 :=
            match findLiveCall s2 callSid with
            | .none => s2
            | .some lc =>
                let lc' :=
                  { lc with
                    status := "in_progress"
                    last_update := now
                    customer_name :=
                      if pyTruthy (call'.getattr "customer_name") then
                        call'.getattr "customer_name"
                      else lc.customer_name
                    postcode :=
                      if pyTruthy (call'.getattr "postcode") then
                        call'.getattr "postcode"
                      else lc.postcode }
                { s2 with liveCalls := updateLiveCallInList callSid lc' s2.liveCalls }
          ⟨s3, 200, speaker = "CUSTOMER"⟩
    else ⟨s, 200, false⟩
  else if event = "transcription-stopped" then
    let s1 :=
      match findCall s callSid with
      | .none => s
      | .some call =>
          { s with calls :=
            updateCallInList callSid (call.setattr "status" (.str "ended")) s.calls }
    let s2 :=
      match findLiveCall s1 callSid with
      | .none => s1
      | .some lc =>
          { s1 with liveCalls :=
            updateLiveCallInList callSid { lc with status := "completed" } s1.liveCalls }
    ⟨s2, 200, false⟩
  else ⟨s, 200, false⟩

/-- insertByTimestamp inserts a transcript row into a list sorted by
non-decreasing timestamp, before the first strictly later row; among
equal timestamps the inserted row keeps its relative position, so the
sort below is stable, matching `ORDER BY timestamp` over rows that were
inserted in timestamp order. -/
def insertByTimestamp (t : Transcript) : List Transcript → List Transcript
  | [] => [t]
  | h :: tl =>
      if t.timestamp ≤ h.timestamp then t :: h :: tl
      else h :: insertByTimestamp t tl

/-- sortByTimestamp models `.order_by(Transcript.timestamp)` of
src/app.py line 482 as a stable insertion sort on the creation
timestamp. -/
def sortByTimestamp : List Transcript → List Transcript
  | [] => []
  | h :: tl => insertByTimestamp h (sortByTimestamp tl)

/-- ConversationView is the read model produced by /api/conversations/sid
(src/app.py lines 469-494): whether the call was found and its transcript
rows ordered by timestamp (an unknown call yields an empty transcript
list and still a 200 body). -/
structure ConversationView where
  found : Bool
  transcripts : List Transcript
deriving Repr

/-- get_conversation models src/app.py lines 469-494: fetch the call,
then its transcript rows filtered by call_sid and ordered by
timestamp. -/
def get_conversation (callSid : String) (s : Store) : ConversationView :=
  match findCall s callSid with
  | .none => ⟨false, []⟩
  | .some _ =>
      ⟨true, sortByTimestamp (s.transcripts.filter (fun t => t.call_sid == callSid))⟩

/-- validStatuses is the closed enum of src/app.py line 589. -/
def validStatuses : List String := ["active", "ended", "completed", "callback"]

/-- update_call_status models src/app.py lines 578-607.  The JSON body
fields are `callId` and `newStatus` (`none` for an absent key); Python
truthiness makes id 0 and the empty string count as missing.  Returns the
new store and the HTTP status code (400 validation, 404 not found, 200
success). -/
def update_call_status (callId : Option Nat) (newStatus : Option String)
    (s : Store) : Store × Nat :=
  match callId, newStatus with
  | .some i, .some st =>
      if i = 0 ∨ st = "" then (s, 400)
      else if ¬ validStatuses.contains st then (s, 400)
      else
        match findCallById s i with
        | .none => (s, 404)
        | .some call =>
            ({ s with calls :=
              updateCallByIdInList i (call.setattr "status" (.str st)) s.calls }, 200)
  | _, _ => (s, 400)

/-- ninetyDaysSeconds is the retention window `timedelta(days=90)` of
src/app.py line 200, in seconds. -/
def ninetyDaysSeconds : Int := 90 * 86400

/-- cleanup_old_database_records models src/app.py lines 198-221: delete
the Transcript rows whose own timestamp is before the 90-day cutoff, the
Call rows whose start_time is before the cutoff — `db.session.delete` on
a Call cascades to all its Transcript rows through the
`cascade='all, delete-orphan'` relationship of line 98 — and the stale
LiveCall rows. -/
def cleanup_old_database_records (now : Int) (s : Store) : Store :=
  let cutoff := now - ninetyDaysSeconds
  let keptByOwnAge := s.transcripts.filter (fun t => ¬ t.timestamp < cutoff)
  let oldCalls := s.calls.filter (fun c => c.start_time < cutoff)
  let keptTranscripts :=
    keptByOwnAge.filter (fun t => ¬ oldCalls.any (fun c => c.call_sid == t.call_sid))
  { s with
    calls := s.calls.filter (fun c => ¬ c.start_time < cutoff)
    transcripts := keptTranscripts
    liveCalls := s.liveCalls.filter (fun lc => ¬ lc.start_time < cutoff) }

/-- countCallsFor counts the Call rows carrying a given call_sid. -/
def countCallsFor (s : Store) (callSid : String) : Nat :=
  (s.calls.filter (fun c => c.call_sid == callSid)).length


/-- demoCall is a concrete call record as created by the incoming-call
handler, used by the witnesses below. -/
def demoCall : Call := newCall 1 "CA1" "+44" 0

/-- demoStore is a concrete one-call store used by the witnesses below. -/
def demoStore : Store :=
  { nextCallId := 2, calls := [demoCall], transcripts := [],
    liveCalls := [newLiveCall "CA1" "+44" 0] }

theorem getattr_setattr_self (c : Call) (f : String) (v : PyVal) :
    (c.setattr f v).getattr f = v := by
  simp [Call.getattr, Call.setattr]

theorem getattr_setattr_ne (c : Call) (f g : String) (v : PyVal)
    (h : f ≠ g) : (c.setattr g v).getattr f = c.getattr f := by
  simp [Call.getattr, Call.setattr, h]

theorem setattr_call_sid (c : Call) (f : String) (v : PyVal) :
    (c.setattr f v).call_sid = c.call_sid := rfl

theorem setattr_id (c : Call) (f : String) (v : PyVal) :
    (c.setattr f v).id = c.id := rfl

/-- A field whose current value is neither None nor the empty string is
untouched by one iteration of the merge loop. -/
theorem mergeField_getattr_of_not_unset (c : Call) (u : Bool)
    (fv : String × PyVal) (f : String) (h : pyUnset (c.getattr f) = false) :
    (mergeField (c, u) fv).1.getattr f = c.getattr f := by
  unfold mergeField
  split
  · split
    · next hw =>
      have hne : f ≠ fv.1 := by
        intro he
        rw [he] at h
        simp [h] at hw
      simpa using getattr_setattr_ne c f fv.1 fv.2 hne
    · rfl
  · rfl

theorem foldl_mergeField_getattr_of_not_unset (f : String) :
    ∀ (ds : List (String × PyVal)) (c : Call) (u : Bool),
      pyUnset (c.getattr f) = false →
      (ds.foldl mergeField (c, u)).1.getattr f = c.getattr f := by
  intro ds
  induction ds with
  | nil => intro c u _; rfl
  | cons fv rest ih =>
      intro c u h
      have hstep := mergeField_getattr_of_not_unset c u fv f h
      have h' : pyUnset ((mergeField (c, u) fv).1.getattr f) = false := by
        rw [hstep]; exact h
      calc (List.foldl mergeField (c, u) (fv :: rest)).1.getattr f
          = (List.foldl mergeField (mergeField (c, u) fv) rest).1.getattr f := rfl
        _ = (mergeField (c, u) fv).1.getattr f := by
            rw [← ih (mergeField (c, u) fv).1 (mergeField (c, u) fv).2 h']
        _ = c.getattr f := hstep

/-- A field whose current value is neither None nor the empty string is
untouched by a whole extraction merge. -/
theorem mergeExtractedData_getattr_of_not_unset (c : Call) (f : String)
    (h : pyUnset (c.getattr f) = false) (ds : List (String × PyVal)) :
    (mergeExtractedData c ds).1.getattr f = c.getattr f :=
  foldl_mergeField_getattr_of_not_unset f ds c false h

/-- C1: for every extraction result merged into a CallRecord, a
string-valued field is written only if it is currently unset (None or
empty string); a field already holding a non-empty string keeps its old
value after the merge, and after every sequence of further extraction
merges (first-confirmed-wins, src/app.py lines 277-282). -/
theorem c1_first_confirmed_wins (c : Call) (f : String) (v : String)
    (hv : c.getattr f = PyVal.str v) (hne : v ≠ "") :
    (∀ ds : List (String × PyVal),
        (mergeExtractedData c ds).1.getattr f = PyVal.str v)
    ∧ ∀ dss : List (List (String × PyVal)),
        (dss.foldl (fun call ds => (mergeExtractedData call ds).1) c).getattr f
          = PyVal.str v := by
  have hnu : pyUnset (c.getattr f) = false := by
    rw [hv]
    simp [pyUnset, pyIsNone, pyEqEmptyString, hne]
  constructor
  · intro ds
    rw [mergeExtractedData_getattr_of_not_unset c f hnu ds, hv]
  · intro dss
    induction dss generalizing c with
    | nil => exact hv
    | cons ds rest ih =>
        have h1 : (mergeExtractedData c ds).1.getattr f = PyVal.str v := by
          rw [mergeExtractedData_getattr_of_not_unset c f hnu ds, hv]
        exact ih (mergeExtractedData c ds).1 h1 (by
          rw [h1]; simp [pyUnset, pyIsNone, pyEqEmptyString, hne])

/-- Witness for C1 at the spec's own example: postcode already
"LS1 4ED", a later extraction returns "SW1 1AA", the stored postcode is
unchanged. -/
theorem c1_witness :
    (demoCall.setattr "postcode" (PyVal.str "LS1 4ED")).getattr "postcode"
        = PyVal.str "LS1 4ED"
    ∧ (mergeExtractedData (demoCall.setattr "postcode" (PyVal.str "LS1 4ED"))
        [("postcode", PyVal.str "SW1 1AA")]).1.getattr "postcode"
        = PyVal.str "LS1 4ED" :=
  ⟨by decide,
   (c1_first_confirmed_wins (demoCall.setattr "postcode" (PyVal.str "LS1 4ED"))
      "postcode" "LS1 4ED" (by decide) (by decide)).1
      [("postcode", PyVal.str "SW1 1AA")]⟩

/-- Counterexample to C2: a CallRecord fresh from handle_incoming_call
holds `trade_customer = False` (the column default), and an extraction
result carrying `trade_customer: true` leaves it False — the guard
`current_value is None or current_value == ""` of src/app.py line 280 is
false for the Python value False, because `False == ""` is False, so the
claimed false-to-true transition never happens. -/
theorem c2_counterexample :
    (newCall 1 "CA1" "+44" 0).getattr "trade_customer" = PyVal.bool false
    ∧ (mergeExtractedData (newCall 1 "CA1" "+44" 0)
        [("trade_customer", PyVal.bool true)]).1.getattr "trade_customer"
        = PyVal.bool false := by
  constructor
  · decide
  · decide

/-- C2 amended: extraction never modifies a CallRecord field that
currently holds a boolean value — in particular a flag at its creation
default False is NOT promoted to true by a true extraction value, and no
flag is ever reset from true to false; a true value is written only when
the field is currently None (never the case for rows created by
handle_incoming_call, whose boolean columns default to False). -/
theorem c2_boolean_merge (f : String) :
    (∀ (c : Call) (b : Bool), c.getattr f = PyVal.bool b →
      ∀ dss : List (List (String × PyVal)),
        (dss.foldl (fun call ds => (mergeExtractedData call ds).1) c).getattr f
          = PyVal.bool b)
    ∧ (∀ c : Call, c.getattr f = PyVal.none → hasattrCall f = true →
        (mergeExtractedData c [(f, PyVal.bool true)]).1.getattr f
          = PyVal.bool true) := by
  constructor
  · intro c b hb dss
    induction dss generalizing c with
    | nil => exact hb
    | cons ds rest ih =>
        have hnu : pyUnset (c.getattr f) = false := by
          rw [hb]; simp [pyUnset, pyIsNone, pyEqEmptyString]
        have h1 : (mergeExtractedData c ds).1.getattr f = PyVal.bool b := by
          rw [mergeExtractedData_getattr_of_not_unset c f hnu ds, hb]
        exact ih (mergeExtractedData c ds).1 h1
  · intro c hc hattr
    show (mergeField (c, false) (f, PyVal.bool true)).1.getattr f = PyVal.bool true
    simp only [Call.getattr] at hc
    unfold mergeField
    simp [hattr, pyIsNone, pyEqEmptyString, pyUnset, hc, Call.getattr, Call.setattr]

/-- Witness for C2 amended: `trade_customer` stays False across a merge
carrying true, and a None-valued flag is filled by a true value. -/
theorem c2_witness :
    (demoCall.getattr "trade_customer" = PyVal.bool false
      ∧ ((([[("trade_customer", PyVal.bool true)]] :
            List (List (String × PyVal))).foldl
            (fun call ds => (mergeExtractedData call ds).1)
            demoCall).getattr "trade_customer" = PyVal.bool false))
    ∧ ((demoCall.setattr "trade_customer" PyVal.none).getattr "trade_customer"
          = PyVal.none
      ∧ hasattrCall "trade_customer" = true
      ∧ (mergeExtractedData (demoCall.setattr "trade_customer" PyVal.none)
          [("trade_customer", PyVal.bool true)]).1.getattr "trade_customer"
          = PyVal.bool true) :=
  ⟨⟨by decide,
    (c2_boolean_merge "trade_customer").1 demoCall false (by decide)
      [[("trade_customer", PyVal.bool true)]]⟩,
   ⟨by decide, by decide,
    (c2_boolean_merge "trade_customer").2
      (demoCall.setattr "trade_customer" PyVal.none) (by decide) (by decide)⟩⟩

/-- The calls table is unchanged when the CallSid already has a row. -/
theorem calls_handle_incoming_of_some (sid num : String) (now : Int)
    (s : Store) (c : Call) (h : findCall s sid = some c) :
    (handle_incoming_call sid num now s).calls = s.calls := by
  simp only [handle_incoming_call, h]
  split <;> rfl

/-- The calls table after handling a first-seen CallSid. -/
theorem calls_handle_incoming_of_none (sid num : String) (now : Int)
    (s : Store) (h : findCall s sid = none) :
    (handle_incoming_call sid num now s).calls
      = s.calls ++ [newCall s.nextCallId sid num now] := by
  simp only [handle_incoming_call, h]
  split <;> rfl

/-- After handle_incoming_call a Call row for the CallSid exists. -/
theorem findCall_handle_incoming_isSome (sid num : String) (now : Int)
    (s : Store) :
    (findCall (handle_incoming_call sid num now s) sid).isSome := by
  cases hf : findCall s sid with
  | some c =>
      have hcalls := calls_handle_incoming_of_some sid num now s c hf
      unfold findCall at hf ⊢
      rw [hcalls, hf]
      rfl
  | none =>
      have hcalls := calls_handle_incoming_of_none sid num now s hf
      unfold findCall at hf ⊢
      rw [hcalls, List.find?_append, hf]
      simp [newCall]

/-- The live_calls table after handle_incoming_call: unchanged when a
LiveCall row already exists, otherwise extended with the new row. -/
theorem liveCalls_handle_incoming (sid num : String) (now : Int)
    (s : Store) :
    ((findLiveCall s sid).isSome
      ∧ (handle_incoming_call sid num now s).liveCalls = s.liveCalls)
    ∨ (handle_incoming_call sid num now s).liveCalls
        = s.liveCalls ++ [newLiveCall sid num now] := by
  cases hf : findCall s sid <;>
    cases hl : List.find? (fun lc => lc.call_sid == sid) s.liveCalls <;>
      simp [handle_incoming_call, findLiveCall, hf, hl]

/-- After handle_incoming_call a LiveCall row for the CallSid exists. -/
theorem findLiveCall_handle_incoming_isSome (sid num : String) (now : Int)
    (s : Store) :
    (findLiveCall (handle_incoming_call sid num now s) sid).isSome := by
  rcases liveCalls_handle_incoming sid num now s with ⟨hs, heq⟩ | heq
  · unfold findLiveCall at hs ⊢
    rw [heq]
    exact hs
  · unfold findLiveCall
    rw [heq, List.find?_append]
    cases List.find? (fun lc => lc.call_sid == sid) s.liveCalls <;>
      simp [newLiveCall, Option.or]

/-- When both rows already exist, handle_incoming_call changes nothing. -/
theorem handle_incoming_call_of_found (sid num : String) (now : Int)
    (s : Store) (hc : (findCall s sid).isSome)
    (hl : (findLiveCall s sid).isSome) :
    handle_incoming_call sid num now s = s := by
  obtain ⟨c, hc'⟩ := Option.isSome_iff_exists.mp hc
  obtain ⟨lc, hl'⟩ := Option.isSome_iff_exists.mp hl
  simp [handle_incoming_call, hc', hl']

/-- C3: processing a call-started event is idempotent — starting from a
store with no row for the CallSid, one delivery creates exactly one
CallRecord, in state 'active', and every further delivery of the same
event is a no-op (src/app.py lines 336-347). -/
theorem c3_idempotent_call_creation (s : Store) (sid num : String)
    (now : Int) (h : findCall s sid = none) :
    countCallsFor (handle_incoming_call sid num now s) sid = 1
    ∧ (findCall (handle_incoming_call sid num now s) sid).map
        (fun c => c.getattr "status") = some (PyVal.str "active")
    ∧ ∀ n : Nat, (handle_incoming_call sid num now)^[n]
        (handle_incoming_call sid num now s) = handle_incoming_call sid num now s := by
  have hcalls := calls_handle_incoming_of_none sid num now s h
  have hfail : ∀ x ∈ s.calls, ¬ (x.call_sid == sid) = true := by
    simpa [findCall, List.find?_eq_none] using h
  have hfiltnil : s.calls.filter (fun c => c.call_sid == sid) = [] :=
    List.filter_eq_nil_iff.mpr hfail
  have hnewp : ((newCall s.nextCallId sid num now).call_sid == sid) = true := by
    simp [newCall]
  refine ⟨?_, ?_, ?_⟩
  · unfold countCallsFor
    rw [hcalls, List.filter_append, hfiltnil]
    simp [hnewp]
  · have : findCall (handle_incoming_call sid num now s) sid
        = some (newCall s.nextCallId sid num now) := by
      unfold findCall
      rw [hcalls, List.find?_append]
      have h2 : s.calls.find? (fun c => c.call_sid == sid) = none := h
      rw [h2]
      simp [hnewp]
    rw [this]
    simp [Option.map_some]
    rfl
  · intro n
    induction n with
    | zero => exact Function.iterate_zero_apply _ _
    | succ m ih =>
        rw [Function.iterate_succ_apply,
          handle_incoming_call_of_found sid num now _
            (findCall_handle_incoming_isSome sid num now s)
            (findLiveCall_handle_incoming_isSome sid num now s),
          ih]

/-- Witness for C3: a store that has never seen "CA2". -/
theorem c3_witness :
    findCall demoStore "CA2" = none
    ∧ countCallsFor (handle_incoming_call "CA2" "+1" 7 demoStore) "CA2" = 1
    ∧ (findCall (handle_incoming_call "CA2" "+1" 7 demoStore) "CA2").map
        (fun c => c.getattr "status") = some (PyVal.str "active") :=
  ⟨by rfl,
   (c3_idempotent_call_creation demoStore "CA2" "+1" 7 (by rfl)).1,
   (c3_idempotent_call_creation demoStore "CA2" "+1" 7 (by rfl)).2.1⟩

/-- Writing back the very object found by call_sid leaves the table
unchanged (the SQLAlchemy identity-map no-op). -/
theorem updateCallInList_self (sid : String) (call : Call) :
    ∀ l : List Call, l.find? (fun c => c.call_sid == sid) = some call →
      updateCallInList sid call l = l := by
  intro l
  induction l with
  | nil => intro h; simp at h
  | cons h t ih =>
      intro hf
      by_cases hp : (h.call_sid == sid) = true
      · rw [List.find?_cons_of_pos (p := fun c => c.call_sid == sid) t hp] at hf
        have : h = call := by injection hf
        unfold updateCallInList
        rw [if_pos hp, this]
      · rw [List.find?_cons_of_neg (p := fun c => c.call_sid == sid) t hp] at hf
        unfold updateCallInList
        rw [if_neg hp, ih hf]

/-- C5: a transcription-content event creates a TranscriptEntry only when
the fragment is final and its text is non-empty after stripping; a
non-final fragment, or a final fragment whose text strips to empty, is a
silent no-op and is still acknowledged with 200 (src/app.py lines
400-411, 450). -/
theorem c5_final_only_capture (callSid : String) (txt : Option String)
    (track finalParam : String) (outcome : Option (List (String × PyVal)))
    (now : Int) (s : Store)
    (h : pyLower finalParam ≠ "true" ∨ pyStrip (txt.getD "") = "") :
    (handle_transcription callSid "transcription-content" txt track
        finalParam outcome now s).store = s
    ∧ (handle_transcription callSid "transcription-content" txt track
        finalParam outcome now s).status = 200 := by
  have hcond : ¬ (pyStrip (txt.getD "") ≠ ""
      ∧ (pyLower finalParam == "true") = true) := by
    rcases h with h | h
    · rintro ⟨_, hf⟩
      exact h (by simpa using hf)
    · rintro ⟨ht, _⟩
      exact ht h
  have key : handle_transcription callSid "transcription-content" txt track
      finalParam outcome now s = ⟨s, 200, false⟩ := by
    unfold handle_transcription
    rw [if_pos rfl]
    simp only []
    rw [if_neg hcond]
  rw [key]
  exact ⟨rfl, rfl⟩

/-- Witness for C5: a non-final fragment with non-empty text is dropped
and acknowledged. -/
theorem c5_witness :
    pyLower "false" ≠ "true"
    ∧ (handle_transcription "CA1" "transcription-content" (some "hello")
        "inbound_track" "false" none 5 demoStore).store = demoStore
    ∧ (handle_transcription "CA1" "transcription-content" (some "hello")
        "inbound_track" "false" none 5 demoStore).status = 200 :=
  ⟨by decide,
   (c5_final_only_capture "CA1" (some "hello") "inbound_track" "false"
      none 5 demoStore (Or.inl (by decide))).1,
   (c5_final_only_capture "CA1" (some "hello") "inbound_track" "false"
      none 5 demoStore (Or.inl (by decide))).2⟩

/-- C10: a final, non-empty transcription fragment for a CallSid with no
CallRecord is silently dropped — no TranscriptEntry is created, the
extraction engine is never invoked, the store is untouched, and the
handler still acknowledges with 200 (src/app.py lines 415-416, 450). -/
theorem c10_orphan_transcript_dropped (callSid : String)
    (txt : Option String) (track finalParam : String)
    (outcome : Option (List (String × PyVal))) (now : Int) (s : Store)
    (hfind : findCall s callSid = none) :
    (handle_transcription callSid "transcription-content" txt track
        finalParam outcome now s).store = s
    ∧ (handle_transcription callSid "transcription-content" txt track
        finalParam outcome now s).extractionCalled = false
    ∧ (handle_transcription callSid "transcription-content" txt track
        finalParam outcome now s).status = 200 := by
  have key : handle_transcription callSid "transcription-content" txt track
      finalParam outcome now s = ⟨s, 200, false⟩ := by
    unfold handle_transcription
    rw [if_pos rfl]
    simp only []
    by_cases hcond : (pyStrip (txt.getD "") ≠ ""
        ∧ (pyLower finalParam == "true") = true)
    · rw [if_pos hcond]
      simp only [hfind]
    · rw [if_neg hcond]
  rw [key]
  exact ⟨rfl, rfl, rfl⟩

/-- Witness for C10: a fragment for unseen CallSid "CAX". -/
theorem c10_witness :
    findCall demoStore "CAX" = none
    ∧ (handle_transcription "CAX" "transcription-content" (some "hello")
        "inbound_track" "true" none 5 demoStore).store = demoStore
    ∧ (handle_transcription "CAX" "transcription-content" (some "hello")
        "inbound_track" "true" none 5 demoStore).extractionCalled = false :=
  ⟨by rfl,
   (c10_orphan_transcript_dropped "CAX" (some "hello") "inbound_track"
      "true" none 5 demoStore (by rfl)).1,
   (c10_orphan_transcript_dropped "CAX" (some "hello") "inbound_track"
      "true" none 5 demoStore (by rfl)).2.1⟩

/-- C4: when the extraction collaborator fails (no API key, timeout,
non-200 status or malformed body — the `outcome = none` boundary), a
final customer fragment still persists its TranscriptEntry and no
CallRecord field is modified (src/app.py lines 254-289, 414-432). -/
theorem c4_extraction_failure_isolation (callSid : String)
    (txt : Option String) (finalParam : String) (now : Int) (s : Store)
    (call : Call) (hfind : findCall s callSid = some call)
    (htext : pyStrip (txt.getD "") ≠ "")
    (hfinal : pyLower finalParam = "true") :
    (handle_transcription callSid "transcription-content" txt
        "inbound_track" finalParam none now s).store.calls = s.calls
    ∧ (handle_transcription callSid "transcription-content" txt
        "inbound_track" finalParam none now s).store.transcripts
        = s.transcripts
            ++ [⟨callSid, "CUSTOMER", pyStrip (txt.getD ""), now⟩]
    ∧ (handle_transcription callSid "transcription-content" txt
        "inbound_track" finalParam none now s).status = 200 := by
  have hupd : updateCallInList callSid call s.calls = s.calls :=
    updateCallInList_self callSid call s.calls hfind
  have hcond : pyStrip (txt.getD "") ≠ ""
      ∧ (pyLower finalParam == "true") = true :=
    ⟨htext, by rw [hfinal]; decide⟩
  unfold handle_transcription
  rw [if_pos rfl]
  simp only []
  rw [if_pos hcond]
  simp only [hfind, extract_information_with_openai]
  split <;> simp [hupd]

/-- Witness for C4: a final customer fragment for "CA1" with a failed
extraction call persists the stripped transcript and changes no call
row. -/
theorem c4_witness :
    findCall demoStore "CA1" = some demoCall
    ∧ pyStrip " hello " ≠ ""
    ∧ pyLower "true" = "true"
    ∧ (handle_transcription "CA1" "transcription-content" (some " hello ")
        "inbound_track" "true" none 5 demoStore).store.transcripts
        = demoStore.transcripts ++ [⟨"CA1", "CUSTOMER", pyStrip " hello ", 5⟩]
    ∧ (handle_transcription "CA1" "transcription-content" (some " hello ")
        "inbound_track" "true" none 5 demoStore).store.calls
        = demoStore.calls :=
  ⟨by rfl, by decide, by decide,
   (c4_extraction_failure_isolation "CA1" (some " hello ") "true" 5
      demoStore demoCall (by rfl) (by decide) (by decide)).2.1,
   (c4_extraction_failure_isolation "CA1" (some " hello ") "true" 5
      demoStore demoCall (by rfl) (by decide) (by decide)).1⟩

/-- TimestampSorted states that a transcript list is in non-decreasing
creation-timestamp order. -/
def TimestampSorted (l : List Transcript) : Prop :=
  l.Pairwise (fun a b => a.timestamp ≤ b.timestamp)

theorem mem_insertByTimestamp (t x : Transcript) :
    ∀ l : List Transcript, x ∈ insertByTimestamp t l ↔ x = t ∨ x ∈ l := by
  intro l
  induction l with
  | nil => simp [insertByTimestamp]
  | cons h tl ih =>
      unfold insertByTimestamp
      split
      · simp [or_comm, or_left_comm]
      · simp [ih, or_comm, or_left_comm]

theorem timestampSorted_insertByTimestamp (t : Transcript) :
    ∀ l : List Transcript, TimestampSorted l →
      TimestampSorted (insertByTimestamp t l) := by
  intro l
  induction l with
  | nil => intro _; simp [insertByTimestamp, TimestampSorted]
  | cons h tl ih =>
      intro hs
      rw [TimestampSorted, List.pairwise_cons] at hs
      obtain ⟨hhead, htail⟩ := hs
      unfold insertByTimestamp
      split
      · next hle =>
          rw [TimestampSorted, List.pairwise_cons]
          refine ⟨?_, List.pairwise_cons.mpr ⟨hhead, htail⟩⟩
          intro b hb
          rw [List.mem_cons] at hb
          rcases hb with rfl | hb
          · exact hle
          · exact le_trans hle (hhead b hb)
      · next hgt =>
          rw [TimestampSorted, List.pairwise_cons]
          constructor
          · intro b hb
            rw [mem_insertByTimestamp] at hb
            rcases hb with rfl | hb
            · exact le_of_lt (lt_of_not_le hgt)
            · exact hhead b hb
          · exact ih htail

theorem timestampSorted_sortByTimestamp (l : List Transcript) :
    TimestampSorted (sortByTimestamp l) := by
  induction l with
  | nil => simp [sortByTimestamp, TimestampSorted]
  | cons h tl ih =>
      unfold sortByTimestamp
      exact timestampSorted_insertByTimestamp h (sortByTimestamp tl) ih

theorem sortByTimestamp_eq_self (l : List Transcript)
    (h : TimestampSorted l) : sortByTimestamp l = l := by
  induction l with
  | nil => rfl
  | cons hd tl ih =>
      rw [TimestampSorted, List.pairwise_cons] at h
      obtain ⟨hhead, htail⟩ := h
      unfold sortByTimestamp
      rw [ih htail]
      cases tl with
      | nil => rfl
      | cons b bs =>
          unfold insertByTimestamp
          rw [if_pos (hhead b (by simp))]

/-- C6: fetching a known call's transcript returns its TranscriptEntry
rows ordered by non-decreasing creation timestamp; when the stored rows
for that call are already in timestamp order (the ordering invariant of
rows appended by the ingestion handlers), the returned list is exactly
the insertion-order list (src/app.py lines 473-488). -/
theorem c6_transcript_ordering (s : Store) (sid : String) (c : Call)
    (hfind : findCall s sid = some c)
    (hsorted : TimestampSorted
      (s.transcripts.filter (fun t => t.call_sid == sid))) :
    (get_conversation sid s).transcripts
      = s.transcripts.filter (fun t => t.call_sid == sid)
    ∧ TimestampSorted (get_conversation sid s).transcripts := by
  have key : (get_conversation sid s).transcripts
      = s.transcripts.filter (fun t => t.call_sid == sid) := by
    unfold get_conversation
    rw [hfind]
    exact sortByTimestamp_eq_self _ hsorted
  exact ⟨key, by rw [key]; exact hsorted⟩

/-- demoTranscripts is a two-row conversation for "CA1", stored in
insertion order. -/
def demoTranscripts : List Transcript :=
  [⟨"CA1", "CUSTOMER", "hi", 3⟩, ⟨"CA1", "AI_AGENT", "hello", 4⟩]

/-- c6Store is demoStore with the two-row conversation attached. -/
def c6Store : Store :=
  { nextCallId := 2, calls := [demoCall], transcripts := demoTranscripts,
    liveCalls := [] }

/-- Witness for C6 on a two-row conversation stored in order. -/
theorem c6_witness :
    findCall c6Store "CA1" = some demoCall
    ∧ (get_conversation "CA1" c6Store).transcripts = demoTranscripts :=
  ⟨by rfl,
   by
    have h := (c6_transcript_ordering c6Store "CA1" demoCall (by rfl)
      (by unfold TimestampSorted; decide)).1
    rw [h]
    decide⟩

/-- After overwriting the first row matching primary key i with a row
that still carries key i, lookup by i returns the overwritten row. -/
theorem find?_updateCallByIdInList (i : Nat) (c' : Call)
    (hc' : (c'.id == i) = true) :
    ∀ (l : List Call) (c : Call),
      l.find? (fun x => x.id == i) = some c →
      (updateCallByIdInList i c' l).find? (fun x => x.id == i) = some c' := by
  intro l
  induction l with
  | nil => intro c h; simp at h
  | cons h t ih =>
      intro c hf
      by_cases hp : (h.id == i) = true
      · unfold updateCallByIdInList
        rw [if_pos hp]
        exact List.find?_cons_of_pos (p := fun x => x.id == i) t hc'
      · rw [List.find?_cons_of_neg (p := fun x => x.id == i) t hp] at hf
        unfold updateCallByIdInList
        rw [if_neg hp,
          List.find?_cons_of_neg (p := fun x : Call => x.id == i)
            (updateCallByIdInList i c' t) hp]
        exact ih c hf

/-- C7: an update-status request whose status value is outside the
recognized closed enum is rejected with a client error (400) and the
store — in particular the targeted CallRecord — is entirely unchanged; a
value inside the enum for an existing call is accepted, answers 200, and
becomes the record's new status while every other field keeps its value
(src/app.py lines 580-607). -/
theorem c7_status_validation (s : Store) (i : Nat) (st : String) :
    (st ∉ validStatuses → update_call_status (some i) (some st) s = (s, 400))
    ∧ (∀ call : Call, st ∈ validStatuses → i ≠ 0 →
        findCallById s i = some call →
        (update_call_status (some i) (some st) s).2 = 200
        ∧ findCallById (update_call_status (some i) (some st) s).1 i
            = some (call.setattr "status" (PyVal.str st))
        ∧ (call.setattr "status" (PyVal.str st)).getattr "status"
            = PyVal.str st
        ∧ ∀ f : String, f ≠ "status" →
            (call.setattr "status" (PyVal.str st)).getattr f
              = call.getattr f) := by
  constructor
  · intro hnotin
    have hcontains : validStatuses.contains st = false := by
      rw [Bool.eq_false_iff]
      intro hc
      rcases List.contains_iff_exists_mem_beq.mp hc with ⟨x, hx, hbeq⟩
      rw [beq_iff_eq] at hbeq
      exact hnotin (hbeq ▸ hx)
    simp only [update_call_status]
    by_cases h0 : i = 0 ∨ st = ""
    · rw [if_pos h0]
    · rw [if_neg h0, if_pos (by rw [hcontains]; simp)]
  · intro call hmem hi hfid
    have hst : st ≠ "" := by
      simp only [validStatuses, List.mem_cons, List.not_mem_nil, or_false] at hmem
      rcases hmem with rfl | rfl | rfl | rfl <;> decide
    have hcontains : validStatuses.contains st = true :=
      List.contains_iff_exists_mem_beq.mpr ⟨st, hmem, by simp⟩
    have hkey : update_call_status (some i) (some st) s
        = ({ s with calls := updateCallByIdInList i (call.setattr "status" (PyVal.str st)) s.calls }, 200) := by
      simp only [update_call_status]
      rw [if_neg (by rintro (h | h); exact hi h; exact hst h),
        if_neg (by rw [hcontains]; simp)]
      simp only [hfid]
    have hfid' : List.find? (fun x => x.id == i) s.calls = some call := hfid
    have hid : ((call.setattr "status" (PyVal.str st)).id == i) = true := by
      rw [setattr_id]
      exact List.find?_some (p := fun x : Call => x.id == i) hfid'
    refine ⟨by rw [hkey], ?_, getattr_setattr_self call "status" (PyVal.str st),
      fun f hf => getattr_setattr_ne call f "status" (PyVal.str st) hf⟩
    rw [hkey]
    exact find?_updateCallByIdInList i (call.setattr "status" (PyVal.str st))
      hid s.calls call hfid

/-- Witness for C7: "bogus" is rejected leaving demoStore intact;
"callback" is applied to call id 1. -/
theorem c7_witness :
    ("bogus" ∉ validStatuses
      ∧ update_call_status (some 1) (some "bogus") demoStore
          = (demoStore, 400))
    ∧ ("callback" ∈ validStatuses
      ∧ findCallById demoStore 1 = some demoCall
      ∧ (update_call_status (some 1) (some "callback") demoStore).2 = 200
      ∧ findCallById (update_call_status (some 1) (some "callback")
            demoStore).1 1
          = some (demoCall.setattr "status" (PyVal.str "callback"))) :=
  ⟨⟨by decide,
    (c7_status_validation demoStore 1 "bogus").1 (by decide)⟩,
   ⟨by decide, by rfl,
    ((c7_status_validation demoStore 1 "callback").2 demoCall (by decide)
      (by decide) (by rfl)).1,
    ((c7_status_validation demoStore 1 "callback").2 demoCall (by decide)
      (by decide) (by rfl)).2.1⟩⟩

/-- C8: the retention sweep deletes exactly the Call rows strictly older
than the 90-day cutoff — a row whose start_time equals the cutoff
survives — and the deletion of an old call removes all of that call's
Transcript rows (the `cascade='all, delete-orphan'` relationship)
(src/app.py lines 198-221). -/
theorem c8_retention_boundary (now : Int) (s : Store) :
    (∀ c : Call, c ∈ (cleanup_old_database_records now s).calls
        ↔ c ∈ s.calls ∧ now - ninetyDaysSeconds ≤ c.start_time)
    ∧ (∀ c : Call, c ∈ s.calls → c.start_time = now - ninetyDaysSeconds →
        c ∈ (cleanup_old_database_records now s).calls)
    ∧ (∀ (c : Call) (t : Transcript), c ∈ s.calls →
        c.start_time < now - ninetyDaysSeconds →
        t.call_sid = c.call_sid →
        t ∉ (cleanup_old_database_records now s).transcripts) := by
  have hiff : ∀ c : Call, c ∈ (cleanup_old_database_records now s).calls
      ↔ c ∈ s.calls ∧ now - ninetyDaysSeconds ≤ c.start_time := by
    intro c
    simp [cleanup_old_database_records, List.mem_filter, not_lt]
  refine ⟨hiff, ?_, ?_⟩
  · intro c hc heq
    exact (hiff c).mpr ⟨hc, le_of_eq heq.symm⟩
  · intro c t hc hlt hsid hmem
    simp only [cleanup_old_database_records, List.mem_filter] at hmem
    obtain ⟨_, hnoold⟩ := hmem
    rw [decide_eq_true_eq] at hnoold
    apply hnoold
    rw [List.any_eq_true]
    refine ⟨c, ?_, ?_⟩
    · rw [List.mem_filter, decide_eq_true_eq]
      exact ⟨hc, hlt⟩
    · rw [beq_iff_eq]
      exact hsid.symm

/-- c8edgeCall sits exactly at the 90-day cutoff for a sweep run at time
2 * ninetyDaysSeconds. -/
def c8edgeCall : Call := newCall 1 "CAEDGE" "+44" ninetyDaysSeconds

/-- c8oldCall is strictly older than the cutoff. -/
def c8oldCall : Call := newCall 2 "CAOLD" "+44" 0

/-- c8oldTranscript is a recent transcript row of the old call. -/
def c8oldTranscript : Transcript :=
  ⟨"CAOLD", "CUSTOMER", "hi", ninetyDaysSeconds + 5⟩

/-- c8Store holds the two calls and the old call's transcript row. -/
def c8Store : Store :=
  { nextCallId := 3, calls := [c8edgeCall, c8oldCall],
    transcripts := [c8oldTranscript], liveCalls := [] }

/-- Witness for C8: the call at exactly the cutoff survives, the strictly
older one is deleted together with its (recent) transcript row. -/
theorem c8_witness :
    (c8edgeCall ∈ c8Store.calls
      ∧ c8edgeCall.start_time = 2 * ninetyDaysSeconds - ninetyDaysSeconds
      ∧ c8edgeCall ∈ (cleanup_old_database_records
          (2 * ninetyDaysSeconds) c8Store).calls)
    ∧ (c8oldCall ∈ c8Store.calls
      ∧ c8oldCall.start_time < 2 * ninetyDaysSeconds - ninetyDaysSeconds
      ∧ c8oldTranscript.call_sid = c8oldCall.call_sid
      ∧ c8oldTranscript ∉ (cleanup_old_database_records
          (2 * ninetyDaysSeconds) c8Store).transcripts) := by
  refine ⟨⟨List.Mem.head _, by decide, ?_⟩,
    ⟨List.Mem.tail _ (List.Mem.head _), by decide, by decide, ?_⟩⟩
  · exact (c8_retention_boundary (2 * ninetyDaysSeconds) c8Store).2.1
      c8edgeCall (List.Mem.head _) (by decide)
  · exact (c8_retention_boundary (2 * ninetyDaysSeconds) c8Store).2.2
      c8oldCall c8oldTranscript (List.Mem.tail _ (List.Mem.head _))
      (by decide) (by decide)

/-- After overwriting the first row matching call_sid with a row that
still carries that call_sid, lookup returns the overwritten row. -/
theorem find?_updateCallInList (sid : String) (c' : Call)
    (hc' : (c'.call_sid == sid) = true) :
    ∀ (l : List Call) (c : Call),
      l.find? (fun x => x.call_sid == sid) = some c →
      (updateCallInList sid c' l).find? (fun x => x.call_sid == sid) = some c' := by
  intro l
  induction l with
  | nil => intro c h; simp at h
  | cons h t ih =>
      intro c hf
      by_cases hp : (h.call_sid == sid) = true
      · unfold updateCallInList
        rw [if_pos hp]
        exact List.find?_cons_of_pos (p := fun x => x.call_sid == sid) t hc'
      · rw [List.find?_cons_of_neg (p := fun x => x.call_sid == sid) t hp] at hf
        unfold updateCallInList
        rw [if_neg hp,
          List.find?_cons_of_neg (p := fun x : Call => x.call_sid == sid)
            (updateCallInList sid c' t) hp]
        exact ih c hf

/-- Counterexample to C9: with a matching CallRecord present, a
recording-completed event whose RecordingSid is empty writes none of the
recording fields — the guard of src/app.py line 382 also requires a
truthy RecordingSid and a configured TWILIO_ACCOUNT_SID, which the
claim's "when a matching record exists" clause omits. -/
theorem c9_counterexample :
    findCall demoStore "CA1" = some demoCall
    ∧ (handle_recording "AC123" "CA1" "" 30 demoStore).2 = 200
    ∧ (handle_recording "AC123" "CA1" "" 30 demoStore).1.calls.map
        (fun c => c.getattr "recording_sid") = [PyVal.none]
    ∧ (handle_recording "AC123" "CA1" "" 30 demoStore).1.calls.map
        (fun c => c.getattr "audio_status") = [PyVal.str "pending"] :=
  ⟨by rfl, by decide, by decide, by decide⟩

/-- C9 amended: a recording-completed event for an unknown CallSid is
dropped — store untouched, no exception, still acknowledged 200; when a
matching record exists AND the event carries a non-empty RecordingSid AND
the Twilio account SID is configured (not the 'your_twilio_sid'
placeholder), the record's recording url, recording sid, duration and
audio status are set (src/app.py lines 375-392). -/
theorem c9_recording_event (accountSid callSid recordingSid : String)
    (dur : Int) (s : Store) :
    (findCall s callSid = none →
      handle_recording accountSid callSid recordingSid dur s = (s, 200))
    ∧ (∀ call : Call, findCall s callSid = some call → recordingSid ≠ "" →
        accountSid ≠ "your_twilio_sid" →
        (handle_recording accountSid callSid recordingSid dur s).2 = 200
        ∧ ∃ call' : Call,
            findCall (handle_recording accountSid callSid recordingSid
                dur s).1 callSid = some call'
            ∧ call'.getattr "recording_url"
                = PyVal.str (twilioRecordingUrl accountSid recordingSid)
            ∧ call'.getattr "recording_sid" = PyVal.str recordingSid
            ∧ call'.getattr "recording_duration" = PyVal.int dur
            ∧ call'.getattr "audio_status" = PyVal.str "available") := by
  constructor
  · intro hfind
    simp only [handle_recording, hfind]
  · intro call hfind hr ha
    have hfind' : List.find? (fun x => x.call_sid == callSid) s.calls
        = some call := hfind
    have hkey : handle_recording accountSid callSid recordingSid dur s
        = ({ s with calls := updateCallInList callSid ((((call.setattr "recording_url" (.str (twilioRecordingUrl accountSid recordingSid))).setattr "recording_sid" (.str recordingSid)).setattr "recording_duration" (.int dur)).setattr "audio_status" (.str "available")) s.calls }, 200) := by
      simp only [handle_recording, hfind]
      rw [if_pos ⟨hr, ha⟩]
    have hsid : (((((call.setattr "recording_url"
        (.str (twilioRecordingUrl accountSid recordingSid))).setattr
        "recording_sid" (.str recordingSid)).setattr
        "recording_duration" (.int dur)).setattr
        "audio_status" (.str "available")).call_sid == callSid) = true := by
      rw [setattr_call_sid, setattr_call_sid, setattr_call_sid, setattr_call_sid]
      exact List.find?_some (p := fun x : Call => x.call_sid == callSid) hfind'
    refine ⟨by rw [hkey],
      ⟨(((call.setattr "recording_url" (.str (twilioRecordingUrl accountSid recordingSid))).setattr "recording_sid" (.str recordingSid)).setattr "recording_duration" (.int dur)).setattr "audio_status" (.str "available"), ?_, ?_, ?_, ?_, ?_⟩⟩
    · rw [hkey]
      exact find?_updateCallInList callSid _ hsid s.calls call hfind'
    · rw [getattr_setattr_ne _ _ _ _ (by decide),
        getattr_setattr_ne _ _ _ _ (by decide),
        getattr_setattr_ne _ _ _ _ (by decide),
        getattr_setattr_self]
    · rw [getattr_setattr_ne _ _ _ _ (by decide),
        getattr_setattr_ne _ _ _ _ (by decide),
        getattr_setattr_self]
    · rw [getattr_setattr_ne _ _ _ _ (by decide),
        getattr_setattr_self]
    · rw [getattr_setattr_self]

/-- Witness for C9 amended: orphan drop for "CAX"; fields set on "CA1"
with RecordingSid "RE9" and a configured account SID. -/
theorem c9_witness :
    (findCall demoStore "CAX" = none
      ∧ handle_recording "AC123" "CAX" "RE9" 30 demoStore = (demoStore, 200))
    ∧ (findCall demoStore "CA1" = some demoCall
      ∧ (handle_recording "AC123" "CA1" "RE9" 30 demoStore).2 = 200
      ∧ ∃ call' : Call,
          findCall (handle_recording "AC123" "CA1" "RE9" 30 demoStore).1
              "CA1" = some call'
          ∧ call'.getattr "recording_sid" = PyVal.str "RE9"
          ∧ call'.getattr "audio_status" = PyVal.str "available") :=
  ⟨⟨by rfl,
    (c9_recording_event "AC123" "CAX" "RE9" 30 demoStore).1 (by rfl)⟩,
   ⟨by rfl,
    ((c9_recording_event "AC123" "CA1" "RE9" 30 demoStore).2 demoCall
      (by rfl) (by decide) (by decide)).1,
    by
      obtain ⟨call', h1, _, h3, _, h5⟩ :=
        ((c9_recording_event "AC123" "CA1" "RE9" 30 demoStore).2 demoCall
          (by rfl) (by decide) (by decide)).2
      exact ⟨call', h1, h3, h5⟩⟩⟩
